import Mathlib

/-!
Shallow embedding of the SlideDeck controller from `src/js/slidedeck.js`
(EChin-CPLN6920-Storymap).

The SlideDeck class wraps a Leaflet map: it keeps a list of slide elements
and a `currentSlideIndex`, rebuilds a GeoJSON overlay layer on each slide
change, and animates the map viewport to the slide's data bounds.  Machine
numbers of the source (JS doubles used as scroll offsets, viewport heights,
coordinates) are modelled as exact rationals, and JS integer indices as
`Int`.  Side effects on the Leaflet map (clearing layers, adding layers,
registering the one-shot `moveend` handler, flying to bounds, binding and
opening tooltips) are modelled as explicit action traces, and the mutable
fields of the class as explicit state records.
-/

namespace Storymap

/-- A geographic coordinate as built by `L.latLng(lat, lng)`. -/
structure LatLng where
  lat : ℚ
  lng : ℚ
deriving DecidableEq, Repr

/-- A bounds object as built by `L.latLngBounds(corner1, corner2)`. -/
structure LatLngBounds where
  corner1 : LatLng
  corner2 : LatLng
deriving DecidableEq, Repr

/-- GeoJSON feature geometry; the controller only distinguishes point
features (routed through `pointToLayer`) from non-point features (styled
paths). -/
inductive Geometry where
  | point (latlng : LatLng)
  | nonPoint
deriving DecidableEq, Repr

/-- The feature properties read by the controller: `properties.name`
(hover tooltip content) and `properties.label` (persistent tooltip
content).  `none` models an absent (`undefined`) member. -/
structure Props where
  name : Option String
  label : Option String
deriving DecidableEq, Repr

/-- A GeoJSON feature.  `properties` is `none` when the feature carries no
`properties` member at all. -/
structure Feature where
  geometry : Geometry
  properties : Option Props
deriving DecidableEq, Repr

/-- A GeoJSON FeatureCollection, optionally carrying a `bbox` member of
four numbers `(west, south, east, north)`.  `none` models a collection
without a `bbox` member. -/
structure FeatureCollection where
  features : List Feature
  bbox : Option (ℚ × ℚ × ℚ × ℚ)
deriving DecidableEq, Repr

/-- A marker icon as built by `L.icon({iconUrl, iconSize, iconAnchor})`. -/
structure Icon where
  iconUrl : String
  iconSize : Nat × Nat
  iconAnchor : Nat × Nat
deriving DecidableEq, Repr

/-- The fixed SVG icon constructed inside `pointToLayer`
(src/js/slidedeck.js lines 36-40). -/
def markerIcon : Icon :=
  { iconUrl := "./pic/pointicon.svg"
    iconSize := (20, 20)
    iconAnchor := (10, 10) }

/-- The path style returned by the `style` callback
(src/js/slidedeck.js lines 52-59); it ignores its feature argument. -/
structure PathStyle where
  color : String
  fillColor : String
  fillOpacity : ℚ
  weight : Nat
deriving DecidableEq, Repr

/-- The constant style record of the `style` callback. -/
def featureStyle : PathStyle :=
  { color := "red"
    fillColor := "rgba(255, 0, 0, 0.5)"
    fillOpacity := 1 / 2
    weight := 2 }

/-- The base rendering of one feature: a marker (for points) or a styled
path (for everything else). -/
inductive SublayerBase where
  | marker (latlng : LatLng) (icon : Icon)
  | path (style : PathStyle)
deriving DecidableEq, Repr

/-- A tooltip as bound by `bindTooltip(content, options)`.  `content` is
`none` when the JS value passed was `undefined`. -/
structure Tooltip where
  content : Option String
  permanent : Bool
  direction : Option String
  opacity : Option ℚ
deriving DecidableEq, Repr

/-- One rendered sublayer of the GeoJSON layer: the feature it was built
from, its base rendering, and the tooltip bound during construction by
`onEachFeature` (if any). -/
structure Sublayer where
  feature : Feature
  base : SublayerBase
  boundTooltip : Option Tooltip
deriving DecidableEq, Repr

/-- The GeoJSON layer built by `L.geoJSON(data, options)`: one sublayer per
feature of the collection. -/
structure GeoJsonLayer where
  sublayers : List Sublayer
deriving DecidableEq, Repr

/-- `pointToLayer` (src/js/slidedeck.js lines 34-42): every point feature
becomes a marker carrying the fixed SVG icon; the feature argument is not
consulted. -/
def pointToLayer (_feature : Feature) (latlng : LatLng) : SublayerBase :=
  SublayerBase.marker latlng markerIcon

/-- `style` callback (src/js/slidedeck.js lines 52-59): constant. -/
def styleOf (_feature : Feature) : PathStyle :=
  featureStyle

/-- The hover tooltip bound by `onEachFeature`: non-permanent,
top-anchored, opacity 0.8. -/
def hoverTooltip (n : String) : Tooltip :=
  { content := some n
    permanent := false
    direction := some "top"
    opacity := some (4 / 5) }

/-- `onEachFeature` (src/js/slidedeck.js lines 43-51): binds a
non-permanent, top-anchored, 0.8-opacity tooltip showing
`feature.properties.name`, guarded by the JS truthiness test
`feature.properties && feature.properties.name` (an absent `properties`,
an absent `name`, and an empty-string `name` are all falsy). -/
def onEachFeature (feature : Feature) (l : Sublayer) : Sublayer :=
  match feature.properties with
  | some props =>
    match props.name with
    | some n =>
      if n = "" then l
      else { l with boundTooltip := some (hoverTooltip n) }
    | none => l
  | none => l

/-- Build the sublayer for one feature, the way `L.geoJSON` does: route
point geometries through `pointToLayer`, style the rest, then run
`onEachFeature` on the result. -/
def buildSublayer (f : Feature) : Sublayer :=
  let base :=
    match f.geometry with
    | Geometry.point latlng => pointToLayer f latlng
    | Geometry.nonPoint => SublayerBase.path (styleOf f)
  onEachFeature f { feature := f, base := base, boundTooltip := none }

/-- `L.geoJSON(data, options)`: one sublayer per feature, in order. -/
def geoJSON (data : FeatureCollection) : GeoJsonLayer :=
  ⟨data.features.map buildSublayer⟩

/-- `updateDataLayer` (src/js/slidedeck.js lines 31-63): clears the shared
layer group, builds the new GeoJSON layer, adds it to the group, and
returns it.  The layer group is modelled as the list of layers it
contains; the result is the new group together with the returned layer. -/
def updateDataLayer (_dataLayer : List GeoJsonLayer) (data : FeatureCollection) :
    List GeoJsonLayer × GeoJsonLayer :=
  let cleared : List GeoJsonLayer := []
  let geoJsonLayer := geoJSON data
  (cleared ++ [geoJsonLayer], geoJsonLayer)

/-- A slide element, with the attributes the controller reads: the element
id (geodata key), the vertical offset `offsetTop`, and the custom
`showpopups` flag. -/
structure Slide where
  id : String
  offsetTop : ℚ
  showpopups : Bool
deriving DecidableEq, Repr

/-- The mutable SlideDeck state: the slide list and `currentSlideIndex`
(a JS number, modelled as `Int`). -/
structure Deck where
  slides : List Slide
  currentSlideIndex : Int
deriving DecidableEq, Repr

/-- `goNextSlide` (src/js/slidedeck.js lines 154-162): increment the
index, wrap to 0 when it equals the slide count, then resync.  The second
component is the index at which `syncMapToCurrentSlide` runs (the resync
that follows the index change). -/
def goNextSlide (d : Deck) : Deck × Int :=
  let i0 := d.currentSlideIndex + 1
  let i1 := if i0 = (d.slides.length : Int) then 0 else i0
  ({ d with currentSlideIndex := i1 }, i1)

/-- `goPrevSlide` (src/js/slidedeck.js lines 168-176): decrement the
index, wrap to `length - 1` when it becomes negative, then resync.  The
second component is the index at which `syncMapToCurrentSlide` runs. -/
def goPrevSlide (d : Deck) : Deck × Int :=
  let i0 := d.currentSlideIndex - 1
  let i1 := if i0 < 0 then (d.slides.length : Int) - 1 else i0
  ({ d with currentSlideIndex := i1 }, i1)

/-- The scan loop of `calcCurrentSlideIndex` (src/js/slidedeck.js lines
198-205): the first index `i` whose slide satisfies
`offsetTop - scrollPos + windowHeight * 0.7 >= 0`, and the slide count
when no slide does (the loop runs off the end). -/
def scanIndex (slides : List Slide) (scrollPos windowHeight : ℚ) : Nat :=
  match slides with
  | [] => 0
  | s :: rest =>
    if 0 ≤ s.offsetTop - scrollPos + windowHeight * (7 / 10) then 0
    else scanIndex rest scrollPos windowHeight + 1

/-- `calcCurrentSlideIndex` (src/js/slidedeck.js lines 194-211): compute
the scan index from the scroll position; when it differs from the stored
index, store it and resync.  The second component is `some i` when a
resync at index `i` was triggered, `none` otherwise. -/
def calcCurrentSlideIndex (scrollPos windowHeight : ℚ) (d : Deck) :
    Deck × Option Int :=
  let i : Int := scanIndex d.slides scrollPos windowHeight
  if i ≠ d.currentSlideIndex then
    ({ d with currentSlideIndex := i }, some i)
  else
    (d, none)

/-- `boundsFromBbox` (src/js/slidedeck.js lines 110-117): destructure the
bbox as `[west, south, east, north]` and build
`L.latLngBounds(L.latLng(south, west), L.latLng(north, east))`. -/
def boundsFromBbox (bbox : ℚ × ℚ × ℚ × ℚ) : LatLngBounds :=
  let (west, south, east, north) := bbox
  { corner1 := { lat := south, lng := west }
    corner2 := { lat := north, lng := east } }

/-- The bounds argument passed to `map.flyToBounds`: either an explicit
bounds object built by `boundsFromBbox`, or the computed bounds of a
rendered layer (`layer.getBounds()`). -/
inductive BoundsSpec where
  | explicitBounds (b : LatLngBounds)
  | computedBounds (l : GeoJsonLayer)
deriving DecidableEq, Repr

/-- An observable effect on the Leaflet map, in program order. -/
inductive Action where
  | clearLayers
  | addLayer (l : GeoJsonLayer)
  | addMoveEndListener
  | flyToBounds (b : BoundsSpec)
  | bindTooltipPermanent (content : Option String)
  | openTooltip (content : Option String)
  | removeMoveEndListener
deriving DecidableEq, Repr

/-- The body of the `layer.eachLayer` loop inside `handleFlyEnd`
(src/js/slidedeck.js lines 125-128): for each sublayer, bind a permanent
tooltip with content `l.feature.properties.label` and open it.  A feature
whose `properties` member is absent makes the JS expression
`l.feature.properties.label` throw a TypeError, aborting the loop (and the
rest of the handler): the second component is `false` in that case, and
the first component holds the actions performed before the throw. -/
def flyEndLoop : List Sublayer → List Action × Bool
  | [] => ([], true)
  | l :: rest =>
    match l.feature.properties with
    | none => ([], false)
    | some p =>
      (Action.bindTooltipPermanent p.label :: Action.openTooltip p.label
          :: (flyEndLoop rest).1,
       (flyEndLoop rest).2)

/-- The state captured across the `moveend` wait inside `syncMapToSlide`:
the shared layer group, whether `handleFlyEnd` is still registered on the
map, the layer built for this slide, and the slide itself (read by the
handler for its `showpopups` flag). -/
structure FlyState where
  dataLayer : List GeoJsonLayer
  handlerRegistered : Bool
  layer : GeoJsonLayer
  slide : Slide
deriving DecidableEq, Repr

/-- `syncMapToSlide` (src/js/slidedeck.js lines 101-139) after the fetch
has delivered `collection`: rebuild the overlay via `updateDataLayer`,
register `handleFlyEnd` on `moveend`, and fly to the explicit bbox bounds
when the collection has a (truthy) `bbox` member, else to the computed
bounds of the just-built layer.  Returns the resulting state and the
action trace, in program order. -/
def syncMapToSlide (slide : Slide) (collection : FeatureCollection)
    (dataLayer : List GeoJsonLayer) : FlyState × List Action :=
  let dl := (updateDataLayer dataLayer collection).1
  let layer := (updateDataLayer dataLayer collection).2
  let target : BoundsSpec :=
    match collection.bbox with
    | some bbox => BoundsSpec.explicitBounds (boundsFromBbox bbox)
    | none => BoundsSpec.computedBounds layer
  ({ dataLayer := dl, handlerRegistered := true, layer := layer, slide := slide },
   [Action.clearLayers, Action.addLayer layer, Action.addMoveEndListener,
    Action.flyToBounds target])

/-- Delivery of a `moveend` event.  While `handleFlyEnd`
(src/js/slidedeck.js lines 123-131) is registered it runs: when
`slide.showpopups` is truthy it binds and opens a permanent tooltip on
every sublayer, and it then removes itself with
`removeEventListener('moveend', handleFlyEnd)`.  When the `eachLayer`
loop throws, the removal line is never reached and the handler stays
registered.  Once deregistered, further `moveend` events do nothing. -/
def fireMoveEnd (s : FlyState) : FlyState × List Action :=
  if s.handlerRegistered then
    let r := if s.slide.showpopups then flyEndLoop s.layer.sublayers else ([], true)
    if r.2 then
      ({ s with handlerRegistered := false }, r.1 ++ [Action.removeMoveEndListener])
    else
      (s, r.1)
  else
    (s, [])

/-- A concrete slide used by witnesses. -/
def slideA : Slide := { id := "intro", offsetTop := 0, showpopups := false }

/-- A second concrete slide. -/
def slideB : Slide := { id := "mid", offsetTop := 600, showpopups := false }

/-- A third concrete slide. -/
def slideC : Slide := { id := "end", offsetTop := 1200, showpopups := false }

/-- A concrete slide flagged for persistent popups. -/
def slidePop : Slide := { id := "pop", offsetTop := 300, showpopups := true }

/-- A concrete deck positioned at the last slide (index 2 of 3). -/
def deckLast : Deck := { slides := [slideA, slideB, slideC], currentSlideIndex := 2 }

/-- A concrete deck positioned at the first slide (index 0 of 3). -/
def deckFirst : Deck := { slides := [slideA, slideB, slideC], currentSlideIndex := 0 }

/-- A concrete point feature whose properties carry both a name and a
label. -/
def featFull : Feature :=
  { geometry := Geometry.point { lat := 1, lng := 2 }
    properties := some { name := some "City Hall", label := some "Stop 1" } }

/-- A concrete non-point feature whose properties carry a name but no
label. -/
def featNoLabel : Feature :=
  { geometry := Geometry.nonPoint
    properties := some { name := some "District", label := none } }

/-- A concrete collection carrying the explicit bbox `[10, 20, 30, 40]`. -/
def fcBbox : FeatureCollection :=
  { features := [featFull], bbox := some (10, 20, 30, 40) }

/-- A concrete collection without a bbox member. -/
def fcNoBbox : FeatureCollection :=
  { features := [featFull], bbox := none }

/-- A concrete collection whose single feature has no label property. -/
def fcNoLabel : FeatureCollection :=
  { features := [featNoLabel], bbox := none }

/-- A concrete collection with two labelled features. -/
def fcTwo : FeatureCollection :=
  { features := [featFull, featNoLabel], bbox := none }

end Storymap

namespace Storymap

/-- `(-1) % N = N - 1` for positive `N` (mathematical mod, as `Int.emod`
computes for a positive modulus). -/
theorem neg_one_emod_eq (N : Int) (h : 0 < N) : (-1 : Int) % N = N - 1 := by
  have h1 : (N - 1) % N = N - 1 := Int.emod_eq_of_lt (by omega) (by omega)
  have h2 := Int.add_mul_emod_self_left (-1) N 1
  have h3 : (-1 + N * 1 : Int) = N - 1 := by ring
  rw [h3] at h2
  omega

/-- Claim C1: for every valid slide index `i` (`0 ≤ i < N`), `goNextSlide`
from index `i` leaves `currentSlideIndex` equal to `(i + 1) % N` (so from
`N - 1` it lands on 0), and the resync that follows targets exactly the
new index. -/
theorem goNextSlide_mod (d : Deck) (h0 : 0 ≤ d.currentSlideIndex)
    (h1 : d.currentSlideIndex < (d.slides.length : Int)) :
    (goNextSlide d).1.currentSlideIndex
        = (d.currentSlideIndex + 1) % (d.slides.length : Int) ∧
      (goNextSlide d).2 = (goNextSlide d).1.currentSlideIndex := by
  by_cases hc : d.currentSlideIndex + 1 = (d.slides.length : Int)
  · simp only [goNextSlide, if_pos hc]
    refine ⟨?_, trivial⟩
    rw [hc, Int.emod_self]
  · simp only [goNextSlide, if_neg hc]
    exact ⟨(Int.emod_eq_of_lt (by omega) (by omega)).symm, trivial⟩

/-- Claim C2: for every valid slide index `i` (`0 ≤ i < N`), `goPrevSlide`
from index `i` leaves `currentSlideIndex` equal to `(i - 1) % N` (so from
0 it lands on `N - 1`), and the resync that follows targets exactly the
new index. -/
theorem goPrevSlide_mod (d : Deck) (h0 : 0 ≤ d.currentSlideIndex)
    (h1 : d.currentSlideIndex < (d.slides.length : Int)) :
    (goPrevSlide d).1.currentSlideIndex
        = (d.currentSlideIndex - 1) % (d.slides.length : Int) ∧
      (goPrevSlide d).2 = (goPrevSlide d).1.currentSlideIndex := by
  by_cases hc : d.currentSlideIndex - 1 < 0
  · have hz : d.currentSlideIndex = 0 := by omega
    simp only [goPrevSlide, if_pos hc, hz]
    refine ⟨?_, trivial⟩
    have h4 : (0 - 1 : Int) = -1 := by norm_num
    rw [h4, neg_one_emod_eq _ (by omega)]
    norm_num
  · simp only [goPrevSlide, if_neg hc]
    exact ⟨(Int.emod_eq_of_lt (by omega) (by omega)).symm, trivial⟩

/-- Witness for C1: from the last slide (index 2 of 3) `goNextSlide` lands
on `(2 + 1) % 3 = 0` and resyncs there. -/
theorem goNextSlide_mod_witness :
    0 ≤ deckLast.currentSlideIndex ∧
      deckLast.currentSlideIndex < (deckLast.slides.length : Int) ∧
      ((goNextSlide deckLast).1.currentSlideIndex
          = (deckLast.currentSlideIndex + 1) % (deckLast.slides.length : Int) ∧
        (goNextSlide deckLast).2 = (goNextSlide deckLast).1.currentSlideIndex) :=
  ⟨by decide, by decide, goNextSlide_mod deckLast (by decide) (by decide)⟩

/-- Witness for C2: from the first slide (index 0 of 3) `goPrevSlide`
lands on `(0 - 1) % 3 = 2` and resyncs there. -/
theorem goPrevSlide_mod_witness :
    0 ≤ deckFirst.currentSlideIndex ∧
      deckFirst.currentSlideIndex < (deckFirst.slides.length : Int) ∧
      ((goPrevSlide deckFirst).1.currentSlideIndex
          = (deckFirst.currentSlideIndex - 1) % (deckFirst.slides.length : Int) ∧
        (goPrevSlide deckFirst).2 = (goPrevSlide deckFirst).1.currentSlideIndex) :=
  ⟨by decide, by decide, goPrevSlide_mod deckFirst (by decide) (by decide)⟩

/-- Claim C3: for every collection with an explicit bbox
`(west, south, east, north)`, `syncMapToSlide` flies the map to the
explicit bounds with corners `(south, west)` and `(north, east)`, and no
fly action in its trace targets a layer's computed bounds. -/
theorem syncMapToSlide_bbox (slide : Slide) (coll : FeatureCollection)
    (dl : List GeoJsonLayer) (w s e n : ℚ)
    (hb : coll.bbox = some (w, s, e, n)) :
    (syncMapToSlide slide coll dl).2
        = [Action.clearLayers, Action.addLayer (geoJSON coll),
           Action.addMoveEndListener,
           Action.flyToBounds (BoundsSpec.explicitBounds
             { corner1 := { lat := s, lng := w }
               corner2 := { lat := n, lng := e } })] ∧
      ∀ l, Action.flyToBounds (BoundsSpec.computedBounds l)
          ∉ (syncMapToSlide slide coll dl).2 := by
  constructor
  · simp [syncMapToSlide, updateDataLayer, hb, boundsFromBbox]
  · intro l
    simp [syncMapToSlide, updateDataLayer, hb, boundsFromBbox]

/-- Witness for C3: with the bbox `[10, 20, 30, 40]` the fly target is the
bounds with corners `(lat 20, lng 10)` and `(lat 40, lng 30)`. -/
theorem syncMapToSlide_bbox_witness :
    fcBbox.bbox = some (10, 20, 30, 40) ∧
      ((syncMapToSlide slideA fcBbox []).2
          = [Action.clearLayers, Action.addLayer (geoJSON fcBbox),
             Action.addMoveEndListener,
             Action.flyToBounds (BoundsSpec.explicitBounds
               { corner1 := { lat := 20, lng := 10 }
                 corner2 := { lat := 40, lng := 30 } })] ∧
        ∀ l, Action.flyToBounds (BoundsSpec.computedBounds l)
            ∉ (syncMapToSlide slideA fcBbox []).2) :=
  ⟨rfl, syncMapToSlide_bbox slideA fcBbox [] 10 20 30 40 rfl⟩

/-- Claim C4: for every collection without a bbox member,
`syncMapToSlide` flies the map to the computed bounds of the overlay
layer just built from that collection, and no fly action in its trace
targets explicit bbox bounds. -/
theorem syncMapToSlide_noBbox (slide : Slide) (coll : FeatureCollection)
    (dl : List GeoJsonLayer) (hb : coll.bbox = none) :
    (syncMapToSlide slide coll dl).2
        = [Action.clearLayers, Action.addLayer (geoJSON coll),
           Action.addMoveEndListener,
           Action.flyToBounds (BoundsSpec.computedBounds (geoJSON coll))] ∧
      ∀ b, Action.flyToBounds (BoundsSpec.explicitBounds b)
          ∉ (syncMapToSlide slide coll dl).2 := by
  constructor
  · simp [syncMapToSlide, updateDataLayer, hb]
  · intro b
    simp [syncMapToSlide, updateDataLayer, hb]

/-- Witness for C4: a concrete bbox-less collection flies to the computed
bounds of its own rendered layer. -/
theorem syncMapToSlide_noBbox_witness :
    fcNoBbox.bbox = none ∧
      ((syncMapToSlide slideA fcNoBbox []).2
          = [Action.clearLayers, Action.addLayer (geoJSON fcNoBbox),
             Action.addMoveEndListener,
             Action.flyToBounds (BoundsSpec.computedBounds (geoJSON fcNoBbox))] ∧
        ∀ b, Action.flyToBounds (BoundsSpec.explicitBounds b)
            ∉ (syncMapToSlide slideA fcNoBbox []).2) :=
  ⟨rfl, syncMapToSlide_noBbox slideA fcNoBbox [] rfl⟩

/-- Claim C5: `updateDataLayer` fully replaces the overlay: after two
successive calls with collections `A` then `B`, the shared layer group
holds exactly the layer built from `B` (nothing built from `A` remains),
and after each call the group holds exactly one layer. -/
theorem updateDataLayer_replaces (g : List GeoJsonLayer)
    (A B : FeatureCollection) :
    (updateDataLayer (updateDataLayer g A).1 B).1 = [geoJSON B] ∧
      (updateDataLayer g A).1 = [geoJSON A] ∧
      (updateDataLayer (updateDataLayer g A).1 B).1.length = 1 ∧
      (updateDataLayer g A).1.length = 1 := by
  simp [updateDataLayer]

/-- `onEachFeature` only touches the bound tooltip: the feature of a
sublayer is preserved. -/
theorem buildSublayer_feature (f : Feature) : (buildSublayer f).feature = f := by
  unfold buildSublayer onEachFeature
  rcases f with ⟨g, _ | ⟨_ | n, lbl⟩⟩
  · rfl
  · rfl
  · by_cases hn : n = "" <;> simp [hn]

/-- When every sublayer's feature carries a `properties` member, the
`eachLayer` loop of `handleFlyEnd` runs to completion. -/
theorem flyEndLoop_ok (ls : List Sublayer)
    (h : ∀ x ∈ ls, x.feature.properties.isSome) :
    (flyEndLoop ls).2 = true := by
  induction ls with
  | nil => rfl
  | cons a rest ih =>
    have ha := h a (by simp)
    have ht : (flyEndLoop rest).2 = true :=
      ih (fun x hx => h x (by simp [hx]))
    cases hq : a.feature.properties with
    | none => rw [hq] at ha; simp at ha
    | some q => simp [flyEndLoop, hq, ht]

/-- When every sublayer's feature carries a `properties` member, the
`eachLayer` loop of `handleFlyEnd` binds and opens a permanent tooltip
(with the feature's `label` as content) for every sublayer. -/
theorem flyEndLoop_mem (ls : List Sublayer)
    (h : ∀ x ∈ ls, x.feature.properties.isSome)
    (l : Sublayer) (hl : l ∈ ls) (p : Props)
    (hp : l.feature.properties = some p) :
    Action.bindTooltipPermanent p.label ∈ (flyEndLoop ls).1 ∧
      Action.openTooltip p.label ∈ (flyEndLoop ls).1 := by
  induction ls with
  | nil => cases hl
  | cons a rest ih =>
    have ha := h a (by simp)
    cases hq : a.feature.properties with
    | none => rw [hq] at ha; simp at ha
    | some q =>
      rcases List.mem_cons.mp hl with heq | hmem
      · subst heq
        have hpq : q = p := by rw [hp] at hq; exact (Option.some.inj hq).symm
        subst hpq
        simp [flyEndLoop, hq]
      · have hrest := ih (fun x hx => h x (by simp [hx])) hmem
        constructor
        · simp [flyEndLoop, hq]
          exact Or.inr hrest.1
        · simp [flyEndLoop, hq]
          exact Or.inr hrest.2

/-- Every sublayer of the layer built from a collection whose features
all carry `properties` itself carries `properties`. -/
theorem geoJSON_props (coll : FeatureCollection)
    (hprops : ∀ f ∈ coll.features, f.properties.isSome) :
    ∀ x ∈ (geoJSON coll).sublayers, x.feature.properties.isSome := by
  intro x hx
  simp only [geoJSON, List.mem_map] at hx
  obtain ⟨f, hf, rfl⟩ := hx
  rw [buildSublayer_feature]
  exact hprops f hf

/-- Shape of the first `moveend` delivery after `syncMapToSlide`, for a
popups-flagged slide whose `eachLayer` loop completes: the handler
deregisters itself and its actions are the loop's tooltip actions
followed by the listener removal. -/
theorem fireMoveEnd_after_sync (slide : Slide) (coll : FeatureCollection)
    (dl : List GeoJsonLayer) (hpop : slide.showpopups = true)
    (hok : (flyEndLoop (geoJSON coll).sublayers).2 = true) :
    fireMoveEnd (syncMapToSlide slide coll dl).1
      = ({ (syncMapToSlide slide coll dl).1 with handlerRegistered := false },
         (flyEndLoop (geoJSON coll).sublayers).1
           ++ [Action.removeMoveEndListener]) := by
  have hreg : (syncMapToSlide slide coll dl).1.handlerRegistered = true := rfl
  have hslide : (syncMapToSlide slide coll dl).1.slide = slide := rfl
  have hlayer : (syncMapToSlide slide coll dl).1.layer = geoJSON coll := rfl
  simp only [fireMoveEnd, hreg, hslide, hlayer, hpop, hok, if_true]

/-- Claim C6: for a slide flagged for persistent popups (and features
carrying `properties`, without which the handler throws), no permanent
tooltip is bound or opened in `syncMapToSlide`'s own trace (before the
`moveend` event); after the first `moveend` the handler binds and opens a
permanent tooltip on every overlay feature and deregisters itself; a
second `moveend` does nothing. -/
theorem syncMapToSlide_popups_one_shot (slide : Slide) (coll : FeatureCollection)
    (dl : List GeoJsonLayer)
    (hpop : slide.showpopups = true)
    (hprops : ∀ f ∈ coll.features, f.properties.isSome) :
    (∀ c, Action.bindTooltipPermanent c ∉ (syncMapToSlide slide coll dl).2 ∧
        Action.openTooltip c ∉ (syncMapToSlide slide coll dl).2) ∧
      (∀ l ∈ (syncMapToSlide slide coll dl).1.layer.sublayers, ∀ p,
          l.feature.properties = some p →
          Action.bindTooltipPermanent p.label
              ∈ (fireMoveEnd (syncMapToSlide slide coll dl).1).2 ∧
            Action.openTooltip p.label
              ∈ (fireMoveEnd (syncMapToSlide slide coll dl).1).2) ∧
      (fireMoveEnd (syncMapToSlide slide coll dl).1).1.handlerRegistered = false ∧
      Action.removeMoveEndListener
          ∈ (fireMoveEnd (syncMapToSlide slide coll dl).1).2 ∧
      fireMoveEnd (fireMoveEnd (syncMapToSlide slide coll dl).1).1
        = ((fireMoveEnd (syncMapToSlide slide coll dl).1).1, []) := by
  have hlayer : (syncMapToSlide slide coll dl).1.layer = geoJSON coll := rfl
  have hsub := geoJSON_props coll hprops
  have hok : (flyEndLoop (geoJSON coll).sublayers).2 = true := flyEndLoop_ok _ hsub
  have hfire := fireMoveEnd_after_sync slide coll dl hpop hok
  refine ⟨?_, ?_, ?_, ?_, ?_⟩
  · intro c
    constructor <;> simp [syncMapToSlide, updateDataLayer]
  · intro l hl p hp
    rw [hlayer] at hl
    rw [hfire]
    exact ⟨List.mem_append_left _ (flyEndLoop_mem _ hsub l hl p hp).1,
      List.mem_append_left _ (flyEndLoop_mem _ hsub l hl p hp).2⟩
  · rw [hfire]
  · rw [hfire]
    simp
  · rw [hfire]
    simp [fireMoveEnd]

/-- Witness for C6: a concrete popups-flagged slide with a two-feature
collection binds permanent tooltips only on `moveend`, and the handler
fires once. -/
theorem syncMapToSlide_popups_one_shot_witness :
    slidePop.showpopups = true ∧
      (∀ f ∈ fcTwo.features, f.properties.isSome) ∧
      ((∀ c, Action.bindTooltipPermanent c ∉ (syncMapToSlide slidePop fcTwo []).2 ∧
          Action.openTooltip c ∉ (syncMapToSlide slidePop fcTwo []).2) ∧
        (∀ l ∈ (syncMapToSlide slidePop fcTwo []).1.layer.sublayers, ∀ p,
            l.feature.properties = some p →
            Action.bindTooltipPermanent p.label
                ∈ (fireMoveEnd (syncMapToSlide slidePop fcTwo []).1).2 ∧
              Action.openTooltip p.label
                ∈ (fireMoveEnd (syncMapToSlide slidePop fcTwo []).1).2) ∧
        (fireMoveEnd (syncMapToSlide slidePop fcTwo []).1).1.handlerRegistered
            = false ∧
        Action.removeMoveEndListener
            ∈ (fireMoveEnd (syncMapToSlide slidePop fcTwo []).1).2 ∧
        fireMoveEnd (fireMoveEnd (syncMapToSlide slidePop fcTwo []).1).1
          = ((fireMoveEnd (syncMapToSlide slidePop fcTwo []).1).1, [])) :=
  ⟨by decide, by decide,
    syncMapToSlide_popups_one_shot slidePop fcTwo [] (by decide) (by decide)⟩

/-- `calcCurrentSlideIndex` leaves the slide list untouched and always
leaves `currentSlideIndex` equal to the scan result. -/
theorem calcCurrentSlideIndex_state (scrollPos windowHeight : ℚ) (d : Deck) :
    (calcCurrentSlideIndex scrollPos windowHeight d).1.slides = d.slides ∧
      (calcCurrentSlideIndex scrollPos windowHeight d).1.currentSlideIndex
        = (scanIndex d.slides scrollPos windowHeight : Int) := by
  by_cases hc : (scanIndex d.slides scrollPos windowHeight : Int)
      = d.currentSlideIndex
  · simp [calcCurrentSlideIndex, hc]
  · simp [calcCurrentSlideIndex, hc]

/-- When the scan result already equals the stored index,
`calcCurrentSlideIndex` changes nothing and triggers no resync. -/
theorem calcCurrentSlideIndex_noop (scrollPos windowHeight : ℚ) (d : Deck)
    (h : (scanIndex d.slides scrollPos windowHeight : Int)
        = d.currentSlideIndex) :
    calcCurrentSlideIndex scrollPos windowHeight d = (d, none) := by
  simp [calcCurrentSlideIndex, h]

/-- Claim C7: `calcCurrentSlideIndex` is idempotent with respect to
resync side effects: at a fixed scroll position and viewport height, an
immediate second call leaves the state unchanged and triggers no second
resync. -/
theorem calcCurrentSlideIndex_idempotent (scrollPos windowHeight : ℚ)
    (d : Deck) :
    calcCurrentSlideIndex scrollPos windowHeight
        (calcCurrentSlideIndex scrollPos windowHeight d).1
      = ((calcCurrentSlideIndex scrollPos windowHeight d).1, none) := by
  apply calcCurrentSlideIndex_noop
  rw [(calcCurrentSlideIndex_state scrollPos windowHeight d).1,
    (calcCurrentSlideIndex_state scrollPos windowHeight d).2]

/-- When every slide's adjusted offset is negative, the scan loop runs
off the end and yields the slide count. -/
theorem scanIndex_all_neg (slides : List Slide) (scrollPos windowHeight : ℚ)
    (h : ∀ s ∈ slides,
        s.offsetTop - scrollPos + windowHeight * (7 / 10) < 0) :
    scanIndex slides scrollPos windowHeight = slides.length := by
  induction slides with
  | nil => rfl
  | cons a rest ih =>
    have ha := h a (by simp)
    simp only [scanIndex, List.length_cons]
    rw [if_neg (not_le.mpr ha), ih (fun x hx => h x (by simp [hx]))]

/-- Claim C10: when every slide's adjusted offset
(`offsetTop - scrollY + 0.7 * viewport height`) is negative and the
stored index is in range, `calcCurrentSlideIndex` sets
`currentSlideIndex` to the slide count `N` (out of range) and triggers a
resync at index `N`, where no slide exists — the 0-based in-range index
invariant is not preserved. -/
theorem calcCurrentSlideIndex_out_of_range (scrollPos windowHeight : ℚ)
    (d : Deck)
    (hall : ∀ s ∈ d.slides,
        s.offsetTop - scrollPos + windowHeight * (7 / 10) < 0)
    (_h0 : 0 ≤ d.currentSlideIndex)
    (h1 : d.currentSlideIndex < (d.slides.length : Int)) :
    (calcCurrentSlideIndex scrollPos windowHeight d).1.currentSlideIndex
        = (d.slides.length : Int) ∧
      (calcCurrentSlideIndex scrollPos windowHeight d).2
        = some (d.slides.length : Int) ∧
      d.slides.get? d.slides.length = none := by
  have hscan := scanIndex_all_neg d.slides scrollPos windowHeight hall
  have hcond : ((d.slides.length : Int)) ≠ d.currentSlideIndex := by omega
  refine ⟨?_, ?_, ?_⟩
  · simp [calcCurrentSlideIndex, hscan, hcond]
  · simp [calcCurrentSlideIndex, hscan, hcond]
  · simp

/-- Witness for C10: with the three-slide deck scrolled far past the end
(scroll 10000, viewport 100), every adjusted offset is negative and the
call lands on index 3 of a 3-slide deck, resyncing at a missing slide. -/
theorem calcCurrentSlideIndex_out_of_range_witness :
    (∀ s ∈ deckFirst.slides,
        s.offsetTop - 10000 + 100 * (7 / 10) < 0) ∧
      0 ≤ deckFirst.currentSlideIndex ∧
      deckFirst.currentSlideIndex < (deckFirst.slides.length : Int) ∧
      ((calcCurrentSlideIndex 10000 100 deckFirst).1.currentSlideIndex
          = (deckFirst.slides.length : Int) ∧
        (calcCurrentSlideIndex 10000 100 deckFirst).2
          = some (deckFirst.slides.length : Int) ∧
        deckFirst.slides.get? deckFirst.slides.length = none) :=
  ⟨by norm_num [deckFirst, slideA, slideB, slideC], by decide, by decide,
    calcCurrentSlideIndex_out_of_range 10000 100 deckFirst
      (by norm_num [deckFirst, slideA, slideB, slideC]) (by decide) (by decide)⟩

/-- Counterexample to C8 as stated: the marker built by `pointToLayer`
does not vary with the feature at all, so no property value selects a
distinct icon — there are no two features (at any coordinate) whose
markers differ. -/
theorem pointToLayer_counterexample :
    ¬ ∃ (f1 f2 : Feature) (ll : LatLng),
        pointToLayer f1 ll ≠ pointToLayer f2 ll := by
  rintro ⟨f1, f2, ll, h⟩
  exact h rfl

/-- Claim C8 as amended: in `updateDataLayer`, every point feature
becomes a marker carrying the one fixed SVG icon
(`./pic/pointicon.svg`, size 20×20, anchor (10, 10)), regardless of any
property value. -/
theorem pointToLayer_const (f : Feature) (ll : LatLng) :
    pointToLayer f ll = SublayerBase.marker ll markerIcon := rfl

/-- Counterexample to C9 as stated: a collection whose single feature has
no `label` property still gets a permanent tooltip bound by the
completion handler (with absent content) — the dependent binding is not
skipped. -/
theorem labelGuard_counterexample :
    (fcNoLabel.features.map fun f => f.properties.bind Props.label) = [none] ∧
      Action.bindTooltipPermanent none
        ∈ (fireMoveEnd (syncMapToSlide slidePop fcNoLabel []).1).2 := by
  decide

/-- Claim C9 as amended: `updateDataLayer` binds a hover tooltip exactly
when the feature has a `properties` member with a non-empty `name`
(missing names are tolerated by skipping); but the persistent-popup
completion handler has no `label` guard: for features carrying
`properties`, it binds a permanent tooltip whether or not `label` is
present (with absent content when it is missing). -/
theorem tooltip_guards (slide : Slide) (coll : FeatureCollection)
    (dl : List GeoJsonLayer)
    (hpop : slide.showpopups = true)
    (hprops : ∀ f ∈ coll.features, f.properties.isSome) :
    (∀ f ∈ coll.features,
        ((buildSublayer f).boundTooltip.isSome ↔
          ∃ p n, f.properties = some p ∧ p.name = some n ∧ n ≠ "")) ∧
      (∀ l ∈ (syncMapToSlide slide coll dl).1.layer.sublayers, ∀ p,
          l.feature.properties = some p →
          Action.bindTooltipPermanent p.label
            ∈ (fireMoveEnd (syncMapToSlide slide coll dl).1).2) := by
  constructor
  · intro f _
    rcases f with ⟨g, _ | ⟨_ | n, lbl⟩⟩
    · simp [buildSublayer, onEachFeature]
    · simp [buildSublayer, onEachFeature]
    · by_cases hn : n = "" <;> simp [buildSublayer, onEachFeature, hn]
  · have hlayer : (syncMapToSlide slide coll dl).1.layer = geoJSON coll := rfl
    have hsub := geoJSON_props coll hprops
    have hok : (flyEndLoop (geoJSON coll).sublayers).2 = true :=
      flyEndLoop_ok _ hsub
    have hfire := fireMoveEnd_after_sync slide coll dl hpop hok
    intro l hl p hp
    rw [hlayer] at hl
    rw [hfire]
    exact List.mem_append_left _ (flyEndLoop_mem _ hsub l hl p hp).1

/-- Witness for the amended C9: a popups-flagged slide with one named,
labelled feature and one named, label-less feature. -/
theorem tooltip_guards_witness :
    slidePop.showpopups = true ∧
      (∀ f ∈ fcTwo.features, f.properties.isSome) ∧
      ((∀ f ∈ fcTwo.features,
          ((buildSublayer f).boundTooltip.isSome ↔
            ∃ p n, f.properties = some p ∧ p.name = some n ∧ n ≠ "")) ∧
        (∀ l ∈ (syncMapToSlide slidePop fcTwo []).1.layer.sublayers, ∀ p,
            l.feature.properties = some p →
            Action.bindTooltipPermanent p.label
              ∈ (fireMoveEnd (syncMapToSlide slidePop fcTwo []).1).2)) :=
  ⟨by decide, by decide, tooltip_guards slidePop fcTwo [] (by decide) (by decide)⟩

end Storymap
